import Mathlib

/-!
Verification of the PKA (Personal Knowledge Assistant) RAG chat pipeline.

This file gives a shallow embedding, in Lean 4, of the core functions of the
backend (context injection, language detection and prompting, document id
generation, vector-search result formatting, the Ollama completion path with
its local fallback, the non-streaming and streaming chat request flows, and
the temperature defaulting of the hosted provider), together with theorems
settling the specified properties of those functions.

Conventions of the embedding:
- Python strings are Lean `String`s; where character-level operations matter
  (strip, split) we work on `String.data`, the list of characters.
- Python `None` becomes `Option.none`; Python truthiness of optional strings
  (where the empty string is falsy) is made explicit via `pyTruthyStr`.
- Python floats that only ever carry exact decimal literals are modelled as
  exact rationals (so the literal 1.3 becomes 13/10).
- External I/O (the langdetect model, ChromaDB queries, the Ollama and OpenAI
  HTTP calls) is modelled by oracle records passed to the embedded functions;
  a Python exception raised by such a call is an `Except.error`.
-/

/-! ## Python string primitives -/

/-- Whitespace characters recognised by Python `str.strip` / `str.split`
(ASCII range; the Unicode space classes play no role in any input considered
here). -/
def pyIsSpace (c : Char) : Bool :=
  c == ' ' || c == '\t' || c == '\n' || c == '\r' || c == '\x0b' || c == '\x0c'

/-- Python `str.strip()`: drop whitespace from both ends. -/
def pyStrip (s : List Char) : List Char :=
  ((s.dropWhile pyIsSpace).reverse.dropWhile pyIsSpace).reverse

/-- Python `str.strip()` at the `String` level. -/
def pyStripStr (s : String) : String :=
  String.mk (pyStrip s.data)

/-- One step of `pySplit`: fold from the right, growing the current word on a
non-space and closing it off on a space. -/
def pySplitStep (c : Char) : List Char × List (List Char) → List Char × List (List Char)
  | (cur, words) =>
    if pyIsSpace c then ([], if cur = [] then words else cur :: words)
    else (c :: cur, words)

/-- Python `str.split()` with no arguments: the maximal runs of non-whitespace
characters, in order; leading, trailing and repeated whitespace produce no
empty words. -/
def pySplit (s : List Char) : List (List Char) :=
  let r := s.foldr pySplitStep ([], [])
  if r.1 = [] then r.2 else r.1 :: r.2

/-- Truthiness of an optional Python string: `None` and the empty string are
falsy, every other string is truthy. -/
def pyTruthyStr : Option String → Bool
  | none => false
  | some s => s ≠ ""

/-! ## Chat messages and context injection (openai_service._add_context_to_messages) -/

/-- A chat message dictionary: role and content. -/
structure ChatMsg where
  role : String
  content : String
deriving DecidableEq, Repr

/-- The injected content of the last user turn: the f-string template of
`_add_context_to_messages` in `openai_service.py`. -/
def inject_context (context original : String) : String :=
  "Context from knowledge base:\n" ++ context ++ "\n\nUser question: " ++ original

/-- Helper for `add_context_to_messages`: the Python loop walks the list from
the last index down and rewrites the first user message it meets, so on the
reversed list it is this left-to-right scan. -/
def add_context_rev (context : String) : List ChatMsg → List ChatMsg
  | [] => []
  | m :: rest =>
    if m.role = "user" then ⟨m.role, inject_context context m.content⟩ :: rest
    else m :: add_context_rev context rest

/-- Embedding of `OpenAIService._add_context_to_messages`: rewrite the content
of the last user message to carry the knowledge-base context, leaving every
other message as it is. -/
def add_context_to_messages (messages : List ChatMsg) (context : String) : List ChatMsg :=
  (add_context_rev context messages.reverse).reverse

theorem add_context_rev_no_user (context : String) (l : List ChatMsg)
    (h : ∀ m ∈ l, m.role ≠ "user") : add_context_rev context l = l := by
  induction l with
  | nil => rfl
  | cons m rest ih =>
    have hm : m.role ≠ "user" := h m (List.mem_cons_self _ _)
    simp only [add_context_rev, if_neg hm]
    exact congrArg (m :: ·) (ih (fun x hx => h x (List.mem_cons_of_mem _ hx)))

theorem add_context_rev_found (context : String) (l₁ : List ChatMsg) (u : ChatMsg)
    (l₂ : List ChatMsg) (h₁ : ∀ m ∈ l₁, m.role ≠ "user") (hu : u.role = "user") :
    add_context_rev context (l₁ ++ u :: l₂)
      = l₁ ++ ⟨u.role, inject_context context u.content⟩ :: l₂ := by
  induction l₁ with
  | nil => simp [add_context_rev, hu]
  | cons m rest ih =>
    have hm : m.role ≠ "user" := h₁ m (List.mem_cons_self _ _)
    simp only [List.cons_append, add_context_rev, if_neg hm]
    exact congrArg (m :: ·) (ih (fun x hx => h₁ x (List.mem_cons_of_mem _ hx)))

/-- C1: context injection rewrites only the last user turn, whose content
becomes the template string (so the verbatim context is a substring of it),
leaving all earlier turns unchanged; a message list without a user turn is
returned unchanged. -/
theorem context_injection_spec (messages : List ChatMsg) (context : String)
    (hc : context ≠ "") :
    ((∀ m ∈ messages, m.role ≠ "user") → add_context_to_messages messages context = messages)
    ∧ (∀ pre u suf, messages = pre ++ u :: suf → u.role = "user" →
        (∀ m ∈ suf, m.role ≠ "user") →
        add_context_to_messages messages context
          = pre ++ ⟨u.role, inject_context context u.content⟩ :: suf
        ∧ ∃ s t : String, inject_context context u.content = s ++ context ++ t) := by
  constructor
  · intro h
    unfold add_context_to_messages
    rw [add_context_rev_no_user context messages.reverse
      (fun m hm => h m (List.mem_reverse.mp hm))]
    exact List.reverse_reverse messages
  · intro pre u suf hsplit hu hsuf
    constructor
    · unfold add_context_to_messages
      subst hsplit
      rw [show (pre ++ u :: suf).reverse = suf.reverse ++ u :: pre.reverse by
        simp [List.reverse_append]]
      rw [add_context_rev_found context suf.reverse u pre.reverse
        (fun m hm => hsuf m (List.mem_reverse.mp hm)) hu]
      simp [List.reverse_append]
    · exact ⟨"Context from knowledge base:\n", "\n\nUser question: " ++ u.content, by
        simp [inject_context, String.append_assoc]⟩

/-- C1 witness: a concrete two-turn conversation with non-empty context. -/
theorem context_injection_spec_witness :
    add_context_to_messages [⟨"system", "s"⟩, ⟨"user", "q"⟩] "ctx"
      = [⟨"system", "s"⟩, ⟨"user", inject_context "ctx" "q"⟩]
    ∧ ∃ s t : String, inject_context "ctx" "q" = s ++ "ctx" ++ t := by
  have h := (context_injection_spec [⟨"system", "s"⟩, ⟨"user", "q"⟩] "ctx" (by decide)).2
    [⟨"system", "s"⟩] ⟨"user", "q"⟩ [] rfl rfl (by simp)
  exact ⟨h.1, h.2⟩

/-! ## Language service (language_service.py) -/

/-- The `'en'` entry of `LanguageService.SYSTEM_PROMPTS` (note the trailing
space before the first newline, present in the source). -/
def en_prompt : String :=
  "You are a helpful and professional AI assistant. \nYou provide clear, concise, and accurate answers based on the available knowledge base.\nAlways respond in English unless explicitly asked otherwise.\nIf you don\x27t have enough information, say so clearly."

/-- The `'es'` entry of `LanguageService.SYSTEM_PROMPTS`. -/
def es_prompt : String :=
  "Eres un asistente de IA profesional y útil.\nProporcionas respuestas claras, concisas y precisas basadas en la base de conocimientos disponible.\nSiempre responde en español a menos que se te pida explícitamente lo contrario.\nSi no tienes suficiente información, dilo claramente."

/-- The `'fr'` entry of `LanguageService.SYSTEM_PROMPTS`. -/
def fr_prompt : String :=
  "Vous êtes un assistant IA professionnel et utile.\nVous fournissez des réponses claires, concises et précises basées sur la base de connaissances disponible.\nRépondez toujours en français sauf demande contraire explicite.\nSi vous n\x27avez pas assez d\x27informations, dites-le clairement."

/-- The `'de'` entry of `LanguageService.SYSTEM_PROMPTS`. -/
def de_prompt : String :=
  "Sie sind ein hilfreicher und professioneller KI-Assistent.\nSie geben klare, präzise und genaue Antworten basierend auf der verfügbaren Wissensdatenbank.\nAntworten Sie immer auf Deutsch, es sei denn, es wird ausdrücklich anders verlangt.\nWenn Sie nicht genügend Informationen haben, sagen Sie dies klar."

/-- The `LanguageService.SYSTEM_PROMPTS` dictionary as an association list
(keys are distinct, so lookup agrees with the Python dict). -/
def SYSTEM_PROMPTS : List (String × String) :=
  [("en", en_prompt), ("es", es_prompt), ("fr", fr_prompt), ("de", de_prompt)]

/-- The default language of `LanguageService.__init__`. -/
def default_language : String := "en"

/-- Embedding of `LanguageService.detect_language`. The external langdetect
call is an oracle `det`; it returns `none` when the library raises (either a
`LangDetectException` or any other exception — both handlers fall back to the
default language). -/
def detect_language (det : List Char → Option String) (text : List Char) : String :=
  if text = [] ∨ (pyStrip text).length < 3 then default_language
  else
    match det (pyStrip text) with
    | none => default_language
    | some detected =>
      if detected = "zh-cn" ∨ detected = "zh-tw" then "zh-cn" else detected

/-- Embedding of `LanguageService.get_system_prompt`: a truthy custom prompt
wins; otherwise the language template, defaulting to the English one. -/
def get_system_prompt (language : String) (custom_prompt : Option String) : String :=
  if pyTruthyStr custom_prompt then custom_prompt.getD ""
  else (SYSTEM_PROMPTS.lookup language).getD en_prompt

/-- The `language_names` dictionary of
`LanguageService.format_response_instruction`. -/
def language_names : List (String × String) :=
  [("en", "English"), ("es", "Spanish (Español)"), ("fr", "French (Français)"),
   ("de", "German (Deutsch)"), ("it", "Italian (Italiano)"), ("pt", "Portuguese (Português)"),
   ("ru", "Russian (Русский)"), ("zh-cn", "Chinese (中文)"), ("ja", "Japanese (日本語)"),
   ("ko", "Korean (한국어)"), ("ar", "Arabic (العربية)")]

/-- Embedding of `LanguageService.format_response_instruction`. -/
def format_response_instruction (language : String) : String :=
  "\n\nIMPORTANT: Please respond in " ++ ((language_names.lookup language).getD "English") ++ "."

/-- The `system_prompt` local variable of `LanguageService.add_language_context`
after its two assignments: the prompt from `get_system_prompt`, with the
respond-in-language directive appended when there is no truthy custom prompt
and the detected language is not English. -/
def lang_system_prompt (detected_language : String)
    (custom_system_prompt : Option String) : String :=
  if pyTruthyStr custom_system_prompt = false ∧ detected_language ≠ "en" then
    get_system_prompt detected_language custom_system_prompt
      ++ format_response_instruction detected_language
  else get_system_prompt detected_language custom_system_prompt

/-- Embedding of `LanguageService.add_language_context`: compute the system
prompt, then prepend a system turn, or overwrite the content of an existing
leading system turn. -/
def add_language_context (messages : List ChatMsg) (detected_language : String)
    (custom_system_prompt : Option String) : List ChatMsg :=
  match messages with
  | [] => [⟨"system", lang_system_prompt detected_language custom_system_prompt⟩]
  | m :: rest =>
    if m.role ≠ "system" then
      ⟨"system", lang_system_prompt detected_language custom_system_prompt⟩ :: m :: rest
    else { m with content := lang_system_prompt detected_language custom_system_prompt } :: rest

/-! ## C5: short-input short-circuit of detect_language -/

/-- The count of non-whitespace characters of the stripped text. This
definition follows the words of the specified property, not the source; it is
used to state the counterexample below. -/
def nonWhitespaceCount (text : List Char) : Nat :=
  ((pyStrip text).filter (fun c => !pyIsSpace c)).length

/-- C5 counterexample: the text `"a b"` has only 2 non-whitespace characters,
yet its stripped length is 3, so `detect_language` does invoke the detection
model and returns its verdict rather than the default language. -/
theorem detect_language_counterexample :
    nonWhitespaceCount "a b".data < 3
    ∧ detect_language (fun _ => some "fr") "a b".data = "fr"
    ∧ "fr" ≠ default_language := by decide

/-- C5 as amended: every text that is empty or whose stripped form has fewer
than 3 characters — in particular every text of fewer than 3 characters —
short-circuits to the default language, whatever the detection model would
answer. -/
theorem length_dropWhile_le (p : Char → Bool) (l : List Char) :
    (l.dropWhile p).length ≤ l.length := by
  induction l with
  | nil => simp
  | cons a l ih =>
    rw [List.dropWhile_cons]
    split
    · exact Nat.le_succ_of_le ih
    · exact Nat.le_refl _

theorem pyStrip_length_le (l : List Char) : (pyStrip l).length ≤ l.length := by
  calc (pyStrip l).length
      = ((l.dropWhile pyIsSpace).reverse.dropWhile pyIsSpace).length := by
        simp [pyStrip]
    _ ≤ (l.dropWhile pyIsSpace).reverse.length :=
        length_dropWhile_le pyIsSpace (l.dropWhile pyIsSpace).reverse
    _ = (l.dropWhile pyIsSpace).length := by simp
    _ ≤ l.length := length_dropWhile_le pyIsSpace l

theorem detect_language_short_circuit (det : List Char → Option String)
    (text : List Char) (h : text.length < 3 ∨ text = [] ∨ (pyStrip text).length < 3) :
    detect_language det text = default_language := by
  have hcond : text = [] ∨ (pyStrip text).length < 3 := by
    rcases h with h | h | h
    · exact Or.inr (Nat.lt_of_le_of_lt (pyStrip_length_le text) h)
    · exact Or.inl h
    · exact Or.inr h
  simp [detect_language, hcond]

/-- C5 witness: the two-character text `"hi"` returns the default language
even under a detection oracle that would answer Spanish. -/
theorem detect_language_short_circuit_witness :
    detect_language (fun _ => some "es") "hi".data = default_language :=
  detect_language_short_circuit (fun _ => some "es") "hi".data (by decide)

/-! ## C8: add_language_context -/

/-- The system-turn content as described by the amended claim: the custom
prompt verbatim when truthy; otherwise the template of the detected language
(the English template when none exists) with the respond-in-language directive
appended exactly when the detected language is not the default — regardless of
whether a template exists. -/
def amendedSystemContent (language : String) (custom_prompt : Option String) : String :=
  if pyTruthyStr custom_prompt then custom_prompt.getD ""
  else ((SYSTEM_PROMPTS.lookup language).getD en_prompt)
    ++ (if language = "en" then "" else format_response_instruction language)

/-- C8 counterexample: for Spanish — a language that does have its own
template — with no custom prompt, the generic respond-in-Spanish directive is
still appended, contradicting the claim that it is appended only when no
template exists. -/
theorem add_language_context_counterexample :
    (SYSTEM_PROMPTS.lookup "es").isSome = true
    ∧ add_language_context [] "es" none
      = [⟨"system", es_prompt ++ "\n\nIMPORTANT: Please respond in Spanish (Español)."⟩]
    ∧ es_prompt ++ "\n\nIMPORTANT: Please respond in Spanish (Español)." ≠ es_prompt := by
  refine ⟨rfl, ?_, ?_⟩
  · show [(⟨"system", lang_system_prompt "es" none⟩ : ChatMsg)] = _
    rw [show lang_system_prompt "es" none
        = es_prompt ++ "\n\nIMPORTANT: Please respond in Spanish (Español)." from rfl]
  · intro h
    have hlen := congrArg String.length h
    simp [String.length_append] at hlen
    exact absurd hlen (by decide)

/-- C8 as amended: `add_language_context` prepends a system turn, or
overwrites the content of an existing leading system turn; the content is the
custom prompt verbatim when one is supplied (and truthy), else the language
template — falling back to the English template when the language has none —
with the generic respond-in-language directive appended exactly when the
detected language differs from the default, whether or not a template
exists. -/
theorem add_language_context_spec (messages : List ChatMsg) (language : String)
    (custom_prompt : Option String) :
    add_language_context messages language custom_prompt
      = ⟨"system", amendedSystemContent language custom_prompt⟩ ::
        (match messages with
         | [] => []
         | m :: rest => if m.role = "system" then rest else m :: rest) := by
  have hsp : lang_system_prompt language custom_prompt
      = amendedSystemContent language custom_prompt := by
    by_cases hc : pyTruthyStr custom_prompt
    · simp [lang_system_prompt, amendedSystemContent, get_system_prompt, hc]
    · by_cases hl : language = "en"
      · simp [lang_system_prompt, amendedSystemContent, get_system_prompt, hc, hl]
      · simp [lang_system_prompt, amendedSystemContent, get_system_prompt, hc, hl]
  cases messages with
  | nil => simp [add_language_context, hsp]
  | cons m rest =>
    by_cases hr : m.role = "system"
    · simp [add_language_context, hsp, hr]
    · simp [add_language_context, hsp, hr]

/-! ## C9: count_tokens fallback estimate (openai_service.count_tokens) -/

/-- Embedding of the fallback branch of `OpenAIService.count_tokens`, taken
when no tiktoken encoding is available (and equally by the exception handler):
`sum(len(msg.get('content', '').split()) for msg in messages) * 1.3`. The
float literal 1.3 is modelled as the exact rational 13/10; the value is a
rational, not an integer, exactly as the Python expression yields a float. -/
def count_tokens_estimate (messages : List ChatMsg) : ℚ :=
  (((messages.map (fun m => (pySplit m.content.data).length)).sum : ℕ) : ℚ) * (13 / 10)

/-- C9: on the two-word message list the fallback estimate is 13/5 = 2.6 — a
non-integral rational (denominator 5), not the integer `round(2 × 1.3) = 3`
that the declared `-> int` return type and the specified property promise. -/
theorem count_tokens_fallback_not_integer :
    count_tokens_estimate [⟨"user", "hello world"⟩] = 13 / 5
    ∧ Int.fract (13 / 5 : ℚ) ≠ 0
    ∧ round (13 / 5 : ℚ) = 3
    ∧ (13 / 5 : ℚ) ≠ ((3 : ℤ) : ℚ) := by
  refine ⟨?_, by norm_num [Int.fract], ?_, by norm_num⟩
  · have h2 : ((([⟨"user", "hello world"⟩] : List ChatMsg).map
        (fun m => (pySplit m.content.data).length)).sum) = 2 := by decide
    rw [count_tokens_estimate, h2]
    norm_num
  · rw [round_eq]
    norm_num

/-! ## C10: temperature defaulting in chat_completion / chat_completion_stream -/

/-- The configuration fields of `app.core.config.Settings` consumed by the
embedded functions. -/
structure SettingsS where
  PUBLIC_CHAT_ENABLED : Bool
  LLM_PROVIDER : String
  OPENAI_API_KEY : String
  OPENAI_TEMPERATURE : ℚ
  OPENAI_MAX_TOKENS : Nat

/-- The request actually sent to the OpenAI SDK: messages after optional
context injection, and the resolved sampling parameters. -/
structure CompletionCall where
  messages : List ChatMsg
  temperature : ℚ
  max_tokens : Nat
deriving DecidableEq

/-- Embedding of the request-assembly prefix of
`OpenAIService.chat_completion` (lines 152-159): inject context when truthy,
then `temperature = temperature or settings.OPENAI_TEMPERATURE` and
`max_tokens = max_tokens or settings.OPENAI_MAX_TOKENS`, where `or` replaces
both `None` and the falsy 0 by the configured default. -/
def chat_completion_params (st : SettingsS) (messages : List ChatMsg)
    (temperature : Option ℚ) (max_tokens : Option Nat) (context : Option String) :
    CompletionCall :=
  { messages :=
      if pyTruthyStr context then add_context_to_messages messages (context.getD "")
      else messages
    temperature :=
      match temperature with
      | none => st.OPENAI_TEMPERATURE
      | some t => if t = 0 then st.OPENAI_TEMPERATURE else t
    max_tokens :=
      match max_tokens with
      | none => st.OPENAI_MAX_TOKENS
      | some m => if m = 0 then st.OPENAI_MAX_TOKENS else m }

/-- Embedding of the identical request-assembly prefix of
`OpenAIService.chat_completion_stream` (lines 227-234), duplicated in the
source. -/
def chat_completion_stream_params (st : SettingsS) (messages : List ChatMsg)
    (temperature : Option ℚ) (max_tokens : Option Nat) (context : Option String) :
    CompletionCall :=
  { messages :=
      if pyTruthyStr context then add_context_to_messages messages (context.getD "")
      else messages
    temperature :=
      match temperature with
      | none => st.OPENAI_TEMPERATURE
      | some t => if t = 0 then st.OPENAI_TEMPERATURE else t
    max_tokens :=
      match max_tokens with
      | none => st.OPENAI_MAX_TOKENS
      | some m => if m = 0 then st.OPENAI_MAX_TOKENS else m }

/-- The pydantic bounds of `StreamChatRequest.temperature` (`ge=0.0`,
`le=2.0`): 0.0 is accepted by the public request schema. -/
def stream_temperature_valid (t : ℚ) : Bool :=
  decide (0 ≤ t) && decide (t ≤ 2)

/-- C10: a request temperature of exactly 0 is accepted by the schema yet is
silently replaced by the configured default in both the buffered and the
streaming completion paths, while every strictly positive temperature is
forwarded unchanged. -/
theorem temperature_zero_silently_defaulted (st : SettingsS) (messages : List ChatMsg)
    (max_tokens : Option Nat) (context : Option String) :
    stream_temperature_valid 0 = true
    ∧ (chat_completion_params st messages (some 0) max_tokens context).temperature
        = st.OPENAI_TEMPERATURE
    ∧ (chat_completion_stream_params st messages (some 0) max_tokens context).temperature
        = st.OPENAI_TEMPERATURE
    ∧ ∀ t : ℚ, 0 < t →
        (chat_completion_params st messages (some t) max_tokens context).temperature = t
        ∧ (chat_completion_stream_params st messages (some t) max_tokens context).temperature
            = t := by
  refine ⟨by decide, by simp [chat_completion_params],
    by simp [chat_completion_stream_params], ?_⟩
  intro t ht
  have hne : t ≠ 0 := ne_of_gt ht
  exact ⟨by simp [chat_completion_params, hne], by simp [chat_completion_stream_params, hne]⟩

/-- C10 witness: a concrete settings record with default temperature 0.7;
temperature 0 is replaced by 0.7, temperature 1/2 is forwarded. -/
theorem temperature_zero_silently_defaulted_witness :
    stream_temperature_valid 0 = true
    ∧ (chat_completion_params ⟨true, "openai", "k", 7 / 10, 500⟩ [] (some 0) none none).temperature
        = (7 / 10 : ℚ)
    ∧ (chat_completion_stream_params ⟨true, "openai", "k", 7 / 10, 500⟩ [] (some 0)
        none none).temperature = (7 / 10 : ℚ)
    ∧ (chat_completion_params ⟨true, "openai", "k", 7 / 10, 500⟩ [] (some (1 / 2))
        none none).temperature = (1 / 2 : ℚ) := by
  have h := temperature_zero_silently_defaulted ⟨true, "openai", "k", 7 / 10, 500⟩ [] none none
  exact ⟨h.1, h.2.1, h.2.2.1, (h.2.2.2 (1 / 2) (by norm_num)).1⟩

/-! ## C3: search result formatting (ai_service.search_documents) -/

/-- The raw answer of a ChromaDB `collection.query` call, flattened to the
single query of `search_documents`: the inner `results["documents"][0]` list,
and the optional `metadatas` / `distances` (absent keys and the Python-falsy
empty outer lists are both `none`). -/
structure RawQueryResult where
  documents : List String
  metadatas : Option (List (List (String × String)))
  distances : Option (List ℚ)

/-- One formatted entry of the `search_documents` result list. -/
structure SearchResultS where
  document : String
  metadata : List (String × String)
  similarity : ℚ
  distance : ℚ
deriving DecidableEq

/-- Embedding of the result-formatting loop of `AIService.search_documents`:
for each returned document, `similarity` is `1 - distance` when distances are
present (0.0 otherwise, with distance defaulting to 1.0), with no clamping of
any kind. ChromaDB always returns the inner lists with equal lengths, so the
`getD` defaults (an `IndexError` in Python) are never reached on real data. -/
def format_results (raw : RawQueryResult) : List SearchResultS :=
  (List.range raw.documents.length).map (fun i =>
    { document := raw.documents.getD i ""
      metadata := ((raw.metadatas.map (fun ms => ms.getD i [])).getD [])
      similarity := ((raw.distances.map (fun ds => 1 - ds.getD i 0)).getD 0)
      distance := ((raw.distances.map (fun ds => ds.getD i 0)).getD 1) })

/-- C3 counterexample: a store whose distance metric exceeds 1 (here 3/2, as
raw L2 distances can) yields similarity -1/2, outside [0, 1]; the code clamps
nothing. -/
theorem search_similarity_counterexample :
    format_results ⟨["doc"], none, some [3 / 2]⟩
      = [⟨"doc", [], -(1 / 2), 3 / 2⟩]
    ∧ ¬(0 ≤ (-(1 / 2) : ℚ)) := by
  constructor
  · rw [format_results, show List.range (["doc"] : List String).length = [0] by
      simp [List.range_succ]]
    norm_num
  · norm_num

/-- C3 as amended: every formatted search result satisfies
`similarity = 1 - distance` (also on the degenerate no-distances branch, where
0 = 1 - 1), and similarity lies in [0, 1] exactly when the store's distance
lies in [0, 1]; nothing constrains the distance itself. -/
theorem search_similarity_spec (raw : RawQueryResult) (r : SearchResultS)
    (hr : r ∈ format_results raw) :
    r.similarity = 1 - r.distance
    ∧ (0 ≤ r.distance → r.distance ≤ 1 → 0 ≤ r.similarity ∧ r.similarity ≤ 1) := by
  rcases List.mem_map.mp hr with ⟨i, _, hi⟩
  subst hi
  cases hds : raw.distances with
  | none =>
    refine ⟨by simp [hds], fun h0 h1 => ?_⟩
    constructor
    · simp [hds]
    · simp [hds]
  | some ds =>
    refine ⟨by simp [hds], fun h0 h1 => ?_⟩
    simp only [hds] at h0 h1 ⊢
    simp at h0 h1 ⊢
    constructor
    · linarith
    · linarith

/-- C3 witness: a result at distance 1/2 has similarity 1/2, inside [0, 1]. -/
theorem search_similarity_spec_witness :
    (⟨"d", [], 1 / 2, 1 / 2⟩ : SearchResultS).similarity
        = 1 - (⟨"d", [], 1 / 2, 1 / 2⟩ : SearchResultS).distance
    ∧ (0 ≤ (1 / 2 : ℚ) ∧ (1 / 2 : ℚ) ≤ 1) := by
  have h := search_similarity_spec ⟨["d"], none, some [1 / 2]⟩ ⟨"d", [], 1 / 2, 1 / 2⟩
    (by norm_num [format_results, List.range_succ])
  exact ⟨h.1, h.2 (by norm_num) (by norm_num)⟩

/-! ## Ollama completion path (ai_service.generate_response) -/

/-- Strict code-point ordering on character lists, used to fix a canonical
order for the words of a Python set (whose real iteration order is
implementation-defined and plays no role in any property proved here). -/
def charListLt : List Char → List Char → Bool
  | [], [] => false
  | [], _ :: _ => true
  | _ :: _, [] => false
  | a :: as, b :: bs =>
    if a.toNat < b.toNat then true
    else if b.toNat < a.toNat then false
    else charListLt as bs

/-- Non-strict string ordering derived from `charListLt`. -/
def strLe (a b : String) : Bool := !(charListLt b.data a.data)

/-- Insertion into a sorted list of strings. -/
def insertSorted (x : String) : List String → List String
  | [] => [x]
  | y :: ys => if strLe x y then x :: y :: ys else y :: insertSorted x ys

/-- Insertion sort of a list of strings. -/
def sortStrings (l : List String) : List String := l.foldr insertSorted []

/-- Python `str.lower()` (code-point-wise). -/
def pyLower (s : String) : String := String.mk (s.data.map Char.toLower)

/-- The Python expression `set(s.lower().split())`, as a duplicate-free word
list. -/
def wordSet (s : String) : List String :=
  ((pySplit (pyLower s).data).map (fun w => String.mk w)).dedup

/-- The `common_words` set of `_generate_fallback_response`: the intersection
of the query and context word sets, in canonical sorted order (Python set
iteration order is unspecified). -/
def common_words (prompt ctx : String) : List String :=
  sortStrings ((wordSet prompt).filter (fun w => (wordSet ctx).contains w))

/-- Embedding of `AIService._build_prompt`: the full prompt posted to the
Ollama generate endpoint. -/
def build_prompt (prompt : String) (context : Option String) : String :=
  if pyTruthyStr context then
    "Context Information:\n" ++ context.getD "" ++ "\n\nQuestion: " ++ prompt
      ++ "\n\nPlease provide a helpful answer based on the context above. If the context doesn\x27t contain relevant information, please say so.\n\nAnswer:"
  else "Question: " ++ prompt ++ "\n\nAnswer:"

/-- Embedding of `AIService._generate_fallback_response`: the canned reply
used whenever the Ollama call cannot produce text. -/
def generate_fallback_response (prompt : String) (context : Option String) : String :=
  if pyTruthyStr context then
    if common_words prompt (context.getD "") ≠ [] then
      "Based on the available information, I found relevant content related to: "
        ++ String.intercalate ", " (common_words prompt (context.getD ""))
        ++ ". However, the AI service is currently unavailable for detailed analysis. Please refer to the search results above for more information."
    else
      "I found some potentially relevant information in your documents, but the AI service is currently unavailable for detailed analysis. Please review the search results above."
  else
    "I apologize, but the AI service is currently unavailable. Please try again later or contact support if the issue persists."

/-- Outcome of the HTTP POST to the Ollama `/api/generate` endpoint:
connection refused, some other exception, or a reply with a status code and
the `response` field of its JSON body. -/
inductive OllamaResult where
  | connectError
  | otherError (msg : String)
  | reply (status : Nat) (text : String)

/-- Embedding of `AIService.generate_response`: with no HTTP client, on a
connection error, on any other exception, on a non-200 status, and on an
empty generated text, it returns the local fallback response; only a 200
reply with non-empty stripped text is returned as generated. It never raises:
its result type is a plain `String`, with no error case. -/
def generate_response (http_client : Option OllamaResult) (prompt : String)
    (context : Option String) : String :=
  match http_client with
  | none => generate_fallback_response prompt context
  | some OllamaResult.connectError => generate_fallback_response prompt context
  | some (OllamaResult.otherError _) => generate_fallback_response prompt context
  | some (OllamaResult.reply status text) =>
    if status ≠ 200 then generate_fallback_response prompt context
    else if pyStripStr text = "" then generate_fallback_response prompt context
    else pyStripStr text

/-- C6: with the Ollama provider and the server unreachable (httpx raises a
connection error), `generate_response` silently returns the canned apology —
an ordinary successful string — rather than surfacing an `AIServiceError`;
no configuration flag gates this substitution (the missing-client case
behaves identically). -/
theorem ollama_failure_silent_fallback :
    generate_response (some OllamaResult.connectError) "test" none
      = "I apologize, but the AI service is currently unavailable. Please try again later or contact support if the issue persists."
    ∧ generate_response none "test" none
      = generate_response (some OllamaResult.connectError) "test" none :=
  ⟨rfl, rfl⟩

/-! ## Non-streaming chat endpoint (chat.public_chat) -/

/-- Embedding of `AIService.search_documents` around the formatting loop: a
missing collection or any exception inside the try block (embedding failure or
ChromaDB query failure, the oracle outcome) becomes a `SearchError`; otherwise
the raw query results are formatted. -/
def search_documents (collection : Bool) (outcome : Except String RawQueryResult) :
    Except String (List SearchResultS) :=
  if collection = false then Except.error "ChromaDB collection not initialized"
  else
    match outcome with
    | Except.error e => Except.error ("Search failed: " ++ e)
    | Except.ok raw => Except.ok (format_results raw)

/-- The RAG context string of `public_chat`: search results joined with
Document-number separators. -/
def build_context (rs : List SearchResultS) : String :=
  String.intercalate "\n\n"
    (rs.enum.map (fun p => "Document " ++ toString (p.1 + 1) ++ ":\n" ++ p.2.document))

/-- One provenance source of the chat response: truncated content, similarity
and metadata. -/
structure SourceS where
  content : String
  similarity : ℚ
  metadata : List (String × String)
deriving DecidableEq

/-- The source entry built by `public_chat` from one search result. -/
def mk_source (r : SearchResultS) : SourceS :=
  { content := r.document.take 200 ++ "...", similarity := r.similarity, metadata := r.metadata }

/-- Error taxonomy of the chat endpoints: `ValidationError` or
`AIServiceError`, each carrying a message. -/
inductive ChatError where
  | validation (msg : String)
  | aiService (msg : String)
deriving DecidableEq

/-- The request schema `PublicChatRequest`. -/
structure PublicChatRequestS where
  message : String
  conversation_id : Option String
  language : Option String
  use_rag : Bool

/-- The response schema `PublicChatResponse`. -/
structure PublicChatResponseS where
  response : String
  conversation_id : String
  detected_language : String
  sources : Option (List SourceS)
  token_usage : Option Unit

/-- Oracle for one `public_chat` request: the langdetect verdict, the state
and outcome of AI-service startup, the raw vector-search outcome, the hosted
completion call, the Ollama call, and the freshly generated UUID. -/
structure ChatOracle where
  det : List Char → Option String
  modelLoaded : Bool
  initResult : Except String Unit
  searchOutcome : Except String RawQueryResult
  openaiCall : CompletionCall → Except String String
  ollamaHttp : Option OllamaResult
  freshUuid : String

/-- Embedding of the `public_chat` endpoint: validation gate, lazy service
startup, language detection (skipped for a truthy request override), the
best-effort RAG block whose failures and empty results both leave the context
and sources empty, language-aware message assembly, provider routing (OpenAI
when configured with a key, Ollama otherwise), and response assembly. An
OpenAI failure propagates as an `AIServiceError`; the Ollama path cannot
fail. -/
def public_chat (st : SettingsS) (o : ChatOracle) (req : PublicChatRequestS) :
    Except ChatError PublicChatResponseS :=
  if st.PUBLIC_CHAT_ENABLED = false then
    Except.error (ChatError.validation "Public chat is disabled")
  else
    match (if o.modelLoaded then Except.ok () else o.initResult) with
    | Except.error e => Except.error (ChatError.aiService ("Initialization failed: " ++ e))
    | Except.ok _ =>
      let detected_lang :=
        if pyTruthyStr req.language then req.language.getD ""
        else detect_language o.det req.message.data
      let searchRes : Option (List SearchResultS) :=
        if req.use_rag then
          match search_documents true o.searchOutcome with
          | Except.error _ => none
          | Except.ok rs => some rs
        else none
      let context : Option String :=
        match searchRes with
        | some (r :: rs) => some (build_context (r :: rs))
        | _ => none
      let sources : Option (List SourceS) :=
        match searchRes with
        | some (r :: rs) => some ((r :: rs).map mk_source)
        | _ => none
      let messages := add_language_context [⟨"user", req.message⟩] detected_lang none
      match (if st.LLM_PROVIDER = "openai" ∧ st.OPENAI_API_KEY ≠ "" then
               o.openaiCall (chat_completion_params st messages none none context)
             else Except.ok (generate_response o.ollamaHttp req.message context)) with
      | Except.error e => Except.error (ChatError.aiService e)
      | Except.ok text =>
        Except.ok { response := text
                    conversation_id :=
                      if pyTruthyStr req.conversation_id then req.conversation_id.getD ""
                      else o.freshUuid
                    detected_language := detected_lang
                    sources := sources
                    token_usage := none }

/-- C7: with RAG enabled, a vector-search failure and an empty search result
are interchangeable and non-fatal — the request behaves exactly as if the
store were empty, the pipeline continues with no context and no sources, and
(whenever the configured completion path answers) the response is still
successful; searching an empty store yields an empty result list, not an
error. -/
theorem rag_failure_nonfatal (st : SettingsS) (o : ChatOracle) (req : PublicChatRequestS)
    (hen : st.PUBLIC_CHAT_ENABLED = true)
    (hml : o.modelLoaded = true)
    (hrag : req.use_rag = true)
    (hs : (∃ e, o.searchOutcome = Except.error e) ∨ o.searchOutcome = Except.ok ⟨[], none, none⟩)
    (hcomp : ∀ call, ∃ t, o.openaiCall call = Except.ok t) :
    search_documents true (Except.ok ⟨[], none, none⟩) = Except.ok []
    ∧ public_chat st o req
        = public_chat st { o with searchOutcome := Except.ok ⟨[], none, none⟩ } req
    ∧ ∃ r, public_chat st o req = Except.ok r ∧ r.sources = none := by
  have hfmt : format_results ⟨[], none, none⟩ = [] := by
    simp [format_results]
  have heq : public_chat st o req
      = public_chat st { o with searchOutcome := Except.ok ⟨[], none, none⟩ } req := by
    simp only [public_chat, hen, hml, hrag, search_documents, hfmt]
    rcases hs with ⟨e, he⟩ | he <;> simp [he, hfmt]
  refine ⟨by simp [search_documents, hfmt], heq, ?_⟩
  rw [heq]
  obtain ⟨t, ht⟩ := hcomp (chat_completion_params st
    (add_language_context [⟨"user", req.message⟩]
      (if pyTruthyStr req.language then req.language.getD ""
       else detect_language o.det req.message.data) none) none none none)
  by_cases hp : st.LLM_PROVIDER = "openai" ∧ st.OPENAI_API_KEY ≠ ""
  · refine ⟨⟨t,
      if pyTruthyStr req.conversation_id then req.conversation_id.getD "" else o.freshUuid,
      if pyTruthyStr req.language then req.language.getD ""
        else detect_language o.det req.message.data,
      none, none⟩, ?_, rfl⟩
    simp [public_chat, hen, hml, hrag, search_documents, hfmt, hp, ht]
  · refine ⟨⟨generate_response o.ollamaHttp req.message none,
      if pyTruthyStr req.conversation_id then req.conversation_id.getD "" else o.freshUuid,
      if pyTruthyStr req.language then req.language.getD ""
        else detect_language o.det req.message.data,
      none, none⟩, ?_, rfl⟩
    simp [public_chat, hen, hml, hrag, search_documents, hfmt, hp]

/-- C7 witness: a concrete Ollama-path request over a failing search oracle
still returns a successful response with no sources. -/
theorem rag_failure_nonfatal_witness :
    search_documents true (Except.ok ⟨[], none, none⟩) = Except.ok []
    ∧ ∃ r, public_chat ⟨true, "ollama", "", 7 / 10, 500⟩
        ⟨fun _ => none, true, Except.ok (), Except.error "boom",
          fun _ => Except.ok "resp", some OllamaResult.connectError, "uuid-1"⟩
        ⟨"test", none, none, true⟩ = Except.ok r ∧ r.sources = none := by
  have h := rag_failure_nonfatal ⟨true, "ollama", "", 7 / 10, 500⟩
    ⟨fun _ => none, true, Except.ok (), Except.error "boom",
      fun _ => Except.ok "resp", some OllamaResult.connectError, "uuid-1"⟩
    ⟨"test", none, none, true⟩ rfl rfl rfl (Or.inl ⟨"boom", rfl⟩)
    (fun _ => ⟨"resp", rfl⟩)
  exact ⟨h.1, h.2.2⟩

/-! ## Streaming chat endpoint (chat.stream_chat.event_generator) -/

/-- One server-sent event of the streaming chat endpoint. -/
inductive StreamEvent where
  | language (data : String)
  | sources (data : String)
  | message (data : String)
  | done
  | error (data : String)
deriving DecidableEq

/-- Terminal events: `done` and `error`. -/
def isTerminal : StreamEvent → Bool
  | StreamEvent.done => true
  | StreamEvent.error _ => true
  | _ => false

/-- Recogniser for `sources` events. -/
def isSources : StreamEvent → Bool
  | StreamEvent.sources _ => true
  | _ => false

/-- Recogniser for `message` events. -/
def isMessage : StreamEvent → Bool
  | StreamEvent.message _ => true
  | _ => false

/-- The request schema `StreamChatRequest` (adds the optional temperature). -/
structure StreamChatRequestS where
  message : String
  conversation_id : Option String
  language : Option String
  use_rag : Bool
  temperature : Option ℚ

/-- Oracle for one streaming chat request: as `ChatOracle`, with the hosted
streaming call returning the chunks delivered before the stream ends,
together with the exception, if any, that ends it instead of normal
completion (a failure before the first chunk is `([], some e)`). -/
structure StreamOracle where
  det : List Char → Option String
  modelLoaded : Bool
  initResult : Except String Unit
  searchOutcome : Except String RawQueryResult
  openaiStream : CompletionCall → List String × Option String
  ollamaHttp : Option OllamaResult

/-- The word-wise re-chunking of the Ollama fallback streaming branch: the
response is split into words, each yielded with a trailing space except the
last. -/
def words_chunks (response : String) : List String :=
  (let ws := (pySplit response.data).map (fun w => String.mk w)
   ws.enum.map (fun p => p.2 ++ (if p.1 < ws.length - 1 then " " else "")))

/-- The search results of the streaming RAG block: `none` when RAG is off or
the search raised (the exception is caught and logged). -/
def stream_search_results (o : StreamOracle) (req : StreamChatRequestS) :
    Option (List SearchResultS) :=
  if req.use_rag then
    match search_documents true o.searchOutcome with
    | Except.error _ => none
    | Except.ok rs => some rs
  else none

/-- The context carried from the streaming RAG block into completion. -/
def stream_context (sr : Option (List SearchResultS)) : Option String :=
  match sr with
  | some (r :: rs) => some (build_context (r :: rs))
  | _ => none

/-- The `sources` events emitted by the streaming RAG block: one event
carrying the result count when the search succeeded non-empty, none
otherwise. -/
def stream_source_events (sr : Option (List SearchResultS)) : List StreamEvent :=
  match sr with
  | some (r :: rs) => [StreamEvent.sources (toString (r :: rs).length)]
  | _ => []

/-- The completion phase of the streaming generator: on the hosted path the
delivered chunks become `message` events followed by `done`, or by an `error`
event when the stream raised; on the Ollama path the full response is
re-chunked word-wise and always ends in `done`. -/
def stream_completion_events (st : SettingsS) (o : StreamOracle) (req : StreamChatRequestS)
    (messages : List ChatMsg) (context : Option String) : List StreamEvent :=
  if st.LLM_PROVIDER = "openai" ∧ st.OPENAI_API_KEY ≠ "" then
    match o.openaiStream (chat_completion_stream_params st messages req.temperature
      none context) with
    | (chunks, none) => chunks.map StreamEvent.message ++ [StreamEvent.done]
    | (chunks, some e) =>
      chunks.map StreamEvent.message
        ++ [StreamEvent.error ("OpenAI streaming failed: " ++ e)]
  else
    (words_chunks (generate_response o.ollamaHttp req.message context)).map StreamEvent.message
      ++ [StreamEvent.done]

/-- Embedding of the `event_generator` of the `stream_chat` endpoint: an
initialization failure yields a single `error` event; otherwise a `language`
event, then the RAG block (`sources` events), then the completion phase. -/
def event_generator (st : SettingsS) (o : StreamOracle) (req : StreamChatRequestS) :
    List StreamEvent :=
  match (if o.modelLoaded then Except.ok () else o.initResult) with
  | Except.error e => [StreamEvent.error ("Initialization failed: " ++ e)]
  | Except.ok _ =>
    let detected_lang :=
      if pyTruthyStr req.language then req.language.getD ""
      else detect_language o.det req.message.data
    StreamEvent.language detected_lang ::
      (stream_source_events (stream_search_results o req)
        ++ stream_completion_events st o req
            (add_language_context [⟨"user", req.message⟩] detected_lang none)
            (stream_context (stream_search_results o req)))

theorem stream_source_events_sources (sr : Option (List SearchResultS)) :
    ∀ e ∈ stream_source_events sr, isSources e = true := by
  intro e he
  match sr with
  | none => simp [stream_source_events] at he
  | some [] => simp [stream_source_events] at he
  | some (r :: rs) =>
    simp [stream_source_events] at he
    simp [he, isSources]

theorem stream_completion_events_shape (st : SettingsS) (o : StreamOracle)
    (req : StreamChatRequestS) (messages : List ChatMsg) (context : Option String) :
    ∃ M t, stream_completion_events st o req messages context = M ++ [t]
      ∧ (∀ e ∈ M, isMessage e = true) ∧ isTerminal t = true := by
  unfold stream_completion_events
  by_cases hp : st.LLM_PROVIDER = "openai" ∧ st.OPENAI_API_KEY ≠ ""
  · rw [if_pos hp]
    rcases hres : o.openaiStream (chat_completion_stream_params st messages
      req.temperature none context) with ⟨chunks, err⟩
    cases err with
    | none =>
      refine ⟨chunks.map StreamEvent.message, StreamEvent.done, rfl, ?_, rfl⟩
      intro e he
      rcases List.mem_map.mp he with ⟨c, _, hc⟩
      simp [← hc, isMessage]
    | some e =>
      refine ⟨chunks.map StreamEvent.message,
        StreamEvent.error ("OpenAI streaming failed: " ++ e), rfl, ?_, rfl⟩
      intro x hx
      rcases List.mem_map.mp hx with ⟨c, _, hc⟩
      simp [← hc, isMessage]
  · rw [if_neg hp]
    refine ⟨(words_chunks (generate_response o.ollamaHttp req.message context)).map
      StreamEvent.message, StreamEvent.done, rfl, ?_, rfl⟩
    intro e he
    rcases List.mem_map.mp he with ⟨c, _, hc⟩
    simp [← hc, isMessage]

/-- C2: every event sequence of the streaming generator decomposes as at most
one leading `language` event, then `sources` events only, then `message`
events only, then exactly one terminal event (`done` or `error`) in final
position, with no terminal event anywhere earlier — so `language` precedes
every `sources` and `message` event, and nothing follows the terminal
event. -/
theorem stream_event_order (st : SettingsS) (o : StreamOracle) (req : StreamChatRequestS) :
    ∃ (L S M : List StreamEvent) (t : StreamEvent),
      event_generator st o req = L ++ S ++ M ++ [t]
      ∧ (L = [] ∨ ∃ l, L = [StreamEvent.language l])
      ∧ (∀ e ∈ S, isSources e = true)
      ∧ (∀ e ∈ M, isMessage e = true)
      ∧ isTerminal t = true
      ∧ (∀ e ∈ L ++ S ++ M, isTerminal e = false) := by
  unfold event_generator
  rcases hinit : (if o.modelLoaded then Except.ok () else o.initResult) with e | u
  · refine ⟨[], [], [], StreamEvent.error ("Initialization failed: " ++ e),
      by simp, Or.inl rfl, by simp, by simp, rfl, by simp⟩
  · obtain ⟨M, t, hMt, hM, ht⟩ := stream_completion_events_shape st o req
      (add_language_context [⟨"user", req.message⟩]
        (if pyTruthyStr req.language then req.language.getD ""
         else detect_language o.det req.message.data) none)
      (stream_context (stream_search_results o req))
    refine ⟨[StreamEvent.language (if pyTruthyStr req.language then req.language.getD ""
        else detect_language o.det req.message.data)],
      stream_source_events (stream_search_results o req), M, t, ?_, Or.inr ⟨_, rfl⟩,
      stream_source_events_sources _, hM, ht, ?_⟩
    · simp [hMt]
    · intro e he
      simp only [List.append_assoc, List.mem_append, List.mem_singleton] at he
      rcases he with he | he | he
      · simp [he, isTerminal]
      · have := stream_source_events_sources _ e he
        cases e <;> simp_all [isSources, isTerminal]
      · have := hM e he
        cases e <;> simp_all [isMessage, isTerminal]

/-! ## SHA-256 and document ids (ai_service._generate_doc_id)

The id of a document is the first 16 hex digits of the SHA-256 of the UTF-8
bytes of the document text concatenated with the key-sorted JSON of its
metadata. SHA-256 is implemented here in full (FIPS 180-4) over natural
numbers, with 32-bit words represented as naturals reduced modulo 2^32. -/

/-- 2^32, the modulus of SHA-256 word arithmetic. -/
def M32 : Nat := 4294967296

/-- Right rotation of a 32-bit word. -/
def rotr32 (n x : Nat) : Nat := (x / 2 ^ n + x % 2 ^ n * 2 ^ (32 - n)) % M32

/-- The first 64 primes, from which the SHA-256 constants derive. -/
def first64Primes : List Nat :=
  [2, 3, 5, 7, 11, 13, 17, 19, 23, 29, 31, 37, 41, 43, 47, 53, 59, 61, 67, 71,
   73, 79, 83, 89, 97, 101, 103, 107, 109, 113, 127, 131, 137, 139, 149, 151,
   157, 163, 167, 173, 179, 181, 191, 193, 197, 199, 211, 223, 227, 229, 233,
   239, 241, 251, 257, 263, 269, 271, 277, 281, 283, 293, 307, 311]

/-- Bounded binary search for the integer cube root: the largest `k` in
`[lo, hi)` with `k^3 ≤ n`, assuming `lo^3 ≤ n < hi^3`. -/
def icbrtGo (n : Nat) : Nat → Nat → Nat → Nat
  | 0, lo, _ => lo
  | fuel + 1, lo, hi =>
    if hi ≤ lo + 1 then lo
    else
      let mid := (lo + hi) / 2
      if mid ^ 3 ≤ n then icbrtGo n fuel mid hi else icbrtGo n fuel lo mid

/-- The integer cube root. -/
def icbrt (n : Nat) : Nat := icbrtGo n 128 0 (n + 1)

/-- Bounded binary search for the integer square root: the largest `k` in
`[lo, hi)` with `k^2 ≤ n`. -/
def isqrtGo (n : Nat) : Nat → Nat → Nat → Nat
  | 0, lo, _ => lo
  | fuel + 1, lo, hi =>
    if hi ≤ lo + 1 then lo
    else
      let mid := (lo + hi) / 2
      if mid ^ 2 ≤ n then isqrtGo n fuel mid hi else isqrtGo n fuel lo mid

/-- The integer square root. -/
def isqrtN (n : Nat) : Nat := isqrtGo n 128 0 (n + 1)

/-- The SHA-256 round constants: the first 32 bits of the fractional parts of
the cube roots of the first 64 primes (FIPS 180-4, section 4.2.2), written in
decimal; `sha256K_roots` below rederives them from the primes. -/
def sha256K : List Nat :=
  [1116352408, 1899447441, 3049323471, 3921009573, 961987163, 1508970993, 2453635748, 2870763221,
   3624381080, 310598401, 607225278, 1426881987, 1925078388, 2162078206, 2614888103, 3248222580,
   3835390401, 4022224774, 264347078, 604807628, 770255983, 1249150122, 1555081692, 1996064986,
   2554220882, 2821834349, 2952996808, 3210313671, 3336571891, 3584528711, 113926993, 338241895,
   666307205, 773529912, 1294757372, 1396182291, 1695183700, 1986661051, 2177026350, 2456956037,
   2730485921, 2820302411, 3259730800, 3345764771, 3516065817, 3600352804, 4094571909, 275423344,
   430227734, 506948616, 659060556, 883997877, 958139571, 1322822218, 1537002063, 1747873779,
   1955562222, 2024104815, 2227730452, 2361852424, 2428436474, 2756734187, 3204031479, 3329325298]

/-- The SHA-256 initial hash value: the first 32 bits of the fractional parts
of the square roots of the first 8 primes (FIPS 180-4, section 5.3.3). -/
def sha256H0 : List Nat :=
  [1779033703, 3144134277, 1013904242, 2773480762,
   1359893119, 2600822924, 528734635, 1541459225]

set_option maxRecDepth 40000 in
/-- The constant tables really are the fractional root words of the first
primes: the round constants are the integer cube roots of `p * 2^96` modulo
2^32, and the initial hash words the integer square roots of `p * 2^64`
modulo 2^32. -/
theorem sha256K_roots :
    sha256K = first64Primes.map (fun p => icbrt (p * 2 ^ 96) % M32)
    ∧ sha256H0 = (first64Primes.take 8).map (fun p => isqrtN (p * 2 ^ 64) % M32) := by
  constructor
  · decide
  · decide

/-- Big-endian 8-byte encoding of a natural number (the message bit length). -/
def bigEndian8 (n : Nat) : List Nat :=
  [n / 2 ^ 56 % 256, n / 2 ^ 48 % 256, n / 2 ^ 40 % 256, n / 2 ^ 32 % 256,
   n / 2 ^ 24 % 256, n / 2 ^ 16 % 256, n / 2 ^ 8 % 256, n % 256]

/-- SHA-256 padding: append the 0x80 byte, zero bytes up to 56 mod 64, and the
big-endian 64-bit bit length. -/
def sha256_pad (msg : List Nat) : List Nat :=
  msg ++ [128] ++ List.replicate ((120 - (msg.length + 1) % 64) % 64) 0
    ++ bigEndian8 (8 * msg.length)

/-- Big-endian packing of bytes into 32-bit words. -/
def toWords : List Nat → List Nat
  | b0 :: b1 :: b2 :: b3 :: rest =>
    (((b0 * 256 + b1) * 256 + b2) * 256 + b3) :: toWords rest
  | _ => []

/-- The lower sigma-0 function of the message schedule. -/
def smallSigma0 (x : Nat) : Nat := (rotr32 7 x) ^^^ (rotr32 18 x) ^^^ (x / 2 ^ 3)

/-- The lower sigma-1 function of the message schedule. -/
def smallSigma1 (x : Nat) : Nat := (rotr32 17 x) ^^^ (rotr32 19 x) ^^^ (x / 2 ^ 10)

/-- The message schedule: the 16 block words extended to 64. -/
def sha256_schedule (block : List Nat) : Array Nat :=
  (List.range 48).foldl
    (fun w i =>
      w.push ((smallSigma1 (w.getD (i + 14) 0) + w.getD (i + 9) 0
        + smallSigma0 (w.getD (i + 1) 0) + w.getD i 0) % M32))
    (toWords block).toArray

/-- The upper Sigma-0 function of the compression rounds. -/
def bigSigma0 (x : Nat) : Nat := (rotr32 2 x) ^^^ (rotr32 13 x) ^^^ (rotr32 22 x)

/-- The upper Sigma-1 function of the compression rounds. -/
def bigSigma1 (x : Nat) : Nat := (rotr32 6 x) ^^^ (rotr32 11 x) ^^^ (rotr32 25 x)

/-- One round of the SHA-256 compression function. -/
def sha256_round (w : Array Nat)
    (st : Nat × Nat × Nat × Nat × Nat × Nat × Nat × Nat) (i : Nat) :
    Nat × Nat × Nat × Nat × Nat × Nat × Nat × Nat :=
  match st with
  | (a, b, c, d, e, f, g, h) =>
    let ch := (e &&& f) ^^^ ((e ^^^ 4294967295) &&& g)
    let maj := (a &&& b) ^^^ (a &&& c) ^^^ (b &&& c)
    let t1 := (h + bigSigma1 e + ch + (sha256K.getD i 0) + w.getD i 0) % M32
    let t2 := (bigSigma0 a + maj) % M32
    ((t1 + t2) % M32, a, b, c, (d + t1) % M32, e, f, g)

/-- The SHA-256 compression function over one 64-byte block. -/
def sha256_compress (hs : List Nat) (block : List Nat) : List Nat :=
  let w := sha256_schedule block
  match (List.range 64).foldl (sha256_round w)
    (hs.getD 0 0, hs.getD 1 0, hs.getD 2 0, hs.getD 3 0,
     hs.getD 4 0, hs.getD 5 0, hs.getD 6 0, hs.getD 7 0) with
  | (a, b, c, d, e, f, g, h) =>
    [(hs.getD 0 0 + a) % M32, (hs.getD 1 0 + b) % M32, (hs.getD 2 0 + c) % M32,
     (hs.getD 3 0 + d) % M32, (hs.getD 4 0 + e) % M32, (hs.getD 5 0 + f) % M32,
     (hs.getD 6 0 + g) % M32, (hs.getD 7 0 + h) % M32]

/-- Helper for `toBlocks`: structural recursion on a fuel bounded by the list
length, so that the definition reduces inside the kernel. -/
def toBlocksFuel : Nat → List Nat → List (List Nat)
  | _, [] => []
  | 0, l => [l]
  | fuel + 1, b :: bs => (b :: bs).take 64 :: toBlocksFuel fuel ((b :: bs).drop 64)

/-- The padded message split into 64-byte blocks. -/
def toBlocks (l : List Nat) : List (List Nat) := toBlocksFuel l.length l

/-- The 32 digest bytes of SHA-256 of a byte list. -/
def sha256_bytes (msg : List Nat) : List Nat :=
  ((toBlocks (sha256_pad msg)).foldl sha256_compress sha256H0).map
    (fun w => [w / 2 ^ 24 % 256, w / 2 ^ 16 % 256, w / 2 ^ 8 % 256, w % 256])
    |>.flatten

/-- A hex digit character. -/
def hexDigitChar (n : Nat) : Char :=
  if n = 0 then '0' else if n = 1 then '1' else if n = 2 then '2'
  else if n = 3 then '3' else if n = 4 then '4' else if n = 5 then '5'
  else if n = 6 then '6' else if n = 7 then '7' else if n = 8 then '8'
  else if n = 9 then '9' else if n = 10 then 'a' else if n = 11 then 'b'
  else if n = 12 then 'c' else if n = 13 then 'd' else if n = 14 then 'e'
  else 'f'

/-- Two lowercase hex digits of a byte. -/
def byteToHex (b : Nat) : List Char := [hexDigitChar (b / 16), hexDigitChar (b % 16)]

/-- The lowercase hex digest of SHA-256 of a byte list, as `hashlib`
`hexdigest()` renders it. -/
def sha256_hexdigest (msg : List Nat) : String :=
  String.mk ((sha256_bytes msg).map byteToHex).flatten

/-- UTF-8 encoding of one code point. -/
def utf8EncodeCp (n : Nat) : List Nat :=
  if n < 128 then [n]
  else if n < 2048 then [192 + n / 64, 128 + n % 64]
  else if n < 65536 then [224 + n / 4096, 128 + n / 64 % 64, 128 + n % 64]
  else [240 + n / 262144, 128 + n / 4096 % 64, 128 + n / 64 % 64, 128 + n % 64]

/-- Python `str.encode()`: the UTF-8 bytes of a string. -/
def strToBytes (s : String) : List Nat :=
  (s.data.map (fun c => utf8EncodeCp c.toNat)).flatten

set_option maxRecDepth 100000 in
/-- Known-answer check of the hash pipeline: the SHA-256 of `"abc"`. -/
theorem sha256_abc :
    sha256_hexdigest (strToBytes "abc")
      = "ba7816bf8f01cfea414140de5dae2223b00361a396177a9cb410ff61f20015ad" := by
  decide

/-- A scalar metadata value, as JSON distinguishes them: string, integer or
boolean. -/
inductive JsonScalar where
  | str (s : String)
  | int (n : Int)
  | bool (b : Bool)
deriving DecidableEq

/-- Four uppercase-free hex digits, for `\uXXXX` escapes. -/
def hex4 (n : Nat) : List Char :=
  [hexDigitChar (n / 4096 % 16), hexDigitChar (n / 256 % 16),
   hexDigitChar (n / 16 % 16), hexDigitChar (n % 16)]

/-- JSON escaping of one character as `json.dumps` performs it with its
default `ensure_ascii=True`: the two-character escapes for quote, backslash
and the common control characters, `\uXXXX` for other control and all
non-ASCII characters (surrogate pairs above the BMP). -/
def json_escape_char (c : Char) : List Char :=
  let n := c.toNat
  if c = '"' then ['\\', '"']
  else if c = '\\' then ['\\', '\\']
  else if c = '\n' then ['\\', 'n']
  else if c = '\t' then ['\\', 't']
  else if c = '\r' then ['\\', 'r']
  else if c = '\x08' then ['\\', 'b']
  else if c = '\x0c' then ['\\', 'f']
  else if n < 32 ∨ 126 < n then
    if n < 65536 then '\\' :: 'u' :: hex4 n
    else ('\\' :: 'u' :: hex4 (55296 + (n - 65536) / 1024))
      ++ ('\\' :: 'u' :: hex4 (56320 + (n - 65536) % 1024))
  else [c]

/-- The JSON rendering of one scalar. -/
def json_scalar : JsonScalar → String
  | JsonScalar.str s => String.mk ('"' :: (s.data.map json_escape_char).flatten ++ ['"'])
  | JsonScalar.int n => toString n
  | JsonScalar.bool b => if b then "true" else "false"

/-- Metadata: a string-keyed mapping with scalar values, as an association
list with distinct keys (a Python dict). -/
abbrev Metadata : Type := List (String × JsonScalar)

/-- Insertion of one metadata entry into a key-sorted entry list. -/
def insertEntry (x : String × JsonScalar) :
    List (String × JsonScalar) → List (String × JsonScalar)
  | [] => [x]
  | y :: ys => if strLe x.1 y.1 then x :: y :: ys else y :: insertEntry x ys

/-- Key-sorted rendering order: insertion sort of the entries by key, using
the canonical code-point order (Python string comparison). -/
def sortEntries (l : List (String × JsonScalar)) : List (String × JsonScalar) :=
  l.foldr insertEntry []

/-- Python `json.dumps(metadata, sort_keys=True)` with its default
separators: entries sorted by key, rendered `"key": value` and joined with
`", "` inside braces. -/
def json_dumps_sorted (meta : Metadata) : String :=
  "\x7b" ++ String.intercalate ", "
    ((sortEntries meta).map (fun p => json_scalar (JsonScalar.str p.1) ++ ": "
      ++ json_scalar p.2)) ++ "\x7d"

/-- Embedding of `AIService._generate_doc_id`: the first 16 hex digits of the
SHA-256 of the document text concatenated with the key-sorted JSON of its
metadata. -/
def generate_doc_id (document : String) (metadata : Metadata) : String :=
  (sha256_hexdigest (strToBytes (document ++ json_dumps_sorted metadata))).take 16

/-! ## Vector store writes (ai_service.add_documents) -/

/-- One stored record: text and metadata (the embedding vector, computed by
the sentence-transformer and stored alongside, plays no role in id or count
reasoning and is omitted). -/
structure StoredDoc where
  text : String
  metadata : Metadata
deriving DecidableEq

/-- Modelled from the spec: the ChromaDB collection, which is external to the
repository, is a mapping from unique document ids to records; re-adding an
existing id replaces the record (last-write-wins), so the document count is
the number of distinct stored ids. Represented as an association list with
distinct keys maintained by `store_upsert`. -/
abbrev Store : Type := List (String × StoredDoc)

/-- Modelled from the spec: insert-or-replace one record by id. -/
def store_upsert : Store → String → StoredDoc → Store
  | [], i, d => [(i, d)]
  | (k, v) :: rest, i, d =>
    if k = i then (k, d) :: rest else (k, v) :: store_upsert rest i d

/-- The ids present in the store. -/
def store_keys (s : Store) : List String := s.map Prod.fst

/-- Embedding of `AIService.add_documents`: fail when the collection is not
initialized; generate content-hash ids when none are supplied; fail when
embedding generation fails; otherwise write every (id, document, metadata)
triple into the store. The returned pair exposes the ids the call used
together with the new store state. -/
def add_documents (collection : Option Store) (embedOk : Bool)
    (documents : List String) (metadatas : List Metadata)
    (ids : Option (List String)) : Except String (List String × Store) :=
  match collection with
  | none => Except.error "ChromaDB collection not initialized"
  | some s =>
    let usedIds := match ids with
      | some l => l
      | none => (documents.zip metadatas).map (fun p => generate_doc_id p.1 p.2)
    if embedOk = false then Except.error "Failed to add documents: embedding failed"
    else
      Except.ok (usedIds,
        ((usedIds.zip (documents.zip metadatas)).map
          (fun p => (p.1, StoredDoc.mk p.2.1 p.2.2))).foldl
          (fun st p => store_upsert st p.1 p.2) s)

theorem store_keys_mem_upsert (s : Store) (i : String) (d : StoredDoc) (k : String) :
    k ∈ store_keys (store_upsert s i d) ↔ k = i ∨ k ∈ store_keys s := by
  induction s with
  | nil => simp [store_upsert, store_keys]
  | cons kv rest ih =>
    rcases kv with ⟨k', v⟩
    by_cases hk : k' = i
    · subst hk
      simp [store_upsert, store_keys]
    · simp only [store_upsert, if_neg hk, store_keys, List.map_cons, List.mem_cons]
      rw [show (List.map Prod.fst (store_upsert rest i d)) = store_keys (store_upsert rest i d)
        from rfl, ih]
      simp [store_keys]
      tauto

theorem store_length_upsert_mem (s : Store) (i : String) (d : StoredDoc)
    (h : i ∈ store_keys s) : (store_upsert s i d).length = s.length := by
  induction s with
  | nil => simp [store_keys] at h
  | cons kv rest ih =>
    rcases kv with ⟨k', v⟩
    by_cases hk : k' = i
    · simp [store_upsert, hk]
    · simp only [store_keys, List.map_cons, List.mem_cons] at h
      rcases h with h | h
      · exact absurd h.symm hk
      · simp [store_upsert, if_neg hk, ih h]

theorem store_length_upsert_not_mem (s : Store) (i : String) (d : StoredDoc)
    (h : i ∉ store_keys s) : (store_upsert s i d).length = s.length + 1 := by
  induction s with
  | nil => simp [store_upsert]
  | cons kv rest ih =>
    rcases kv with ⟨k', v⟩
    simp only [store_keys, List.map_cons, List.mem_cons, not_or] at h
    have hk : k' ≠ i := fun hh => h.1 hh.symm
    simp [store_upsert, if_neg hk, ih h.2]

theorem store_keys_upsert_toFinset (s : Store) (i : String) (d : StoredDoc) :
    (store_keys (store_upsert s i d)).toFinset = insert i (store_keys s).toFinset := by
  ext k
  simp [store_keys_mem_upsert]

/-- The store-write fold of `add_documents`. -/
def store_write (s : Store) (pairs : List (String × StoredDoc)) : Store :=
  pairs.foldl (fun st p => store_upsert st p.1 p.2) s

theorem store_write_length_le (pairs : List (String × StoredDoc)) :
    ∀ s : Store, (store_write s pairs).length
      ≤ s.length + ((pairs.map Prod.fst).toFinset \ (store_keys s).toFinset).card := by
  induction pairs with
  | nil => intro s; simp [store_write]
  | cons p ps ih =>
    intro s
    have hstep : store_write s (p :: ps) = store_write (store_upsert s p.1 p.2) ps := rfl
    by_cases hmem : p.1 ∈ store_keys s
    · have hlen := store_length_upsert_mem s p.1 p.2 hmem
      have hkeys : (store_keys (store_upsert s p.1 p.2)).toFinset
          = (store_keys s).toFinset := by
        rw [store_keys_upsert_toFinset]
        exact Finset.insert_eq_self.mpr (by simpa using hmem)
      calc (store_write s (p :: ps)).length
          ≤ (store_upsert s p.1 p.2).length
            + ((ps.map Prod.fst).toFinset
              \ (store_keys (store_upsert s p.1 p.2)).toFinset).card := by
            rw [hstep]; exact ih _
        _ = s.length + ((ps.map Prod.fst).toFinset \ (store_keys s).toFinset).card := by
            rw [hlen, hkeys]
        _ ≤ s.length + (((p :: ps).map Prod.fst).toFinset \ (store_keys s).toFinset).card := by
            have hsub : (ps.map Prod.fst).toFinset \ (store_keys s).toFinset
                ⊆ ((p :: ps).map Prod.fst).toFinset \ (store_keys s).toFinset := by
              intro a ha
              simp only [Finset.mem_sdiff] at ha ⊢
              refine ⟨?_, ha.2⟩
              rw [List.map_cons, List.toFinset_cons]
              exact Finset.mem_insert_of_mem ha.1
            exact Nat.add_le_add_left (Finset.card_le_card hsub) _
    · have hlen := store_length_upsert_not_mem s p.1 p.2 hmem
      have hkeys : (store_keys (store_upsert s p.1 p.2)).toFinset
          = insert p.1 (store_keys s).toFinset := store_keys_upsert_toFinset s p.1 p.2
      have hstep2 : ((ps.map Prod.fst).toFinset \ insert p.1 (store_keys s).toFinset)
          = ((ps.map Prod.fst).toFinset \ (store_keys s).toFinset).erase p.1 := by
        ext a
        by_cases ha : a = p.1 <;> simp [ha]
      have hins : (((p :: ps).map Prod.fst).toFinset \ (store_keys s).toFinset)
          = insert p.1 ((ps.map Prod.fst).toFinset \ (store_keys s).toFinset) := by
        ext a
        by_cases ha : a = p.1 <;> simp [ha, hmem]
      have hcard : (((ps.map Prod.fst).toFinset \ (store_keys s).toFinset).erase p.1).card + 1
          = (insert p.1 ((ps.map Prod.fst).toFinset \ (store_keys s).toFinset)).card := by
        rw [← Finset.card_insert_of_not_mem (Finset.not_mem_erase p.1 _)]
        congr 1
        ext a
        by_cases ha : a = p.1 <;> simp [ha]
      calc (store_write s (p :: ps)).length
          ≤ (store_upsert s p.1 p.2).length
            + ((ps.map Prod.fst).toFinset
              \ (store_keys (store_upsert s p.1 p.2)).toFinset).card := by
            rw [hstep]; exact ih _
        _ = s.length + (1 + (((ps.map Prod.fst).toFinset
              \ (store_keys s).toFinset).erase p.1).card) := by
            rw [hlen, hkeys, hstep2]; omega
        _ = s.length + (((p :: ps).map Prod.fst).toFinset \ (store_keys s).toFinset).card := by
            rw [hins, ← hcard]; omega

theorem store_write_keys_mono (pairs : List (String × StoredDoc)) :
    ∀ s : Store, ∀ k ∈ store_keys s, k ∈ store_keys (store_write s pairs) := by
  induction pairs with
  | nil => intro s k hk; simpa [store_write] using hk
  | cons p ps ih =>
    intro s k hk
    exact ih (store_upsert s p.1 p.2) k ((store_keys_mem_upsert s p.1 p.2 k).mpr (Or.inr hk))

theorem store_write_keys_all (pairs : List (String × StoredDoc)) :
    ∀ s : Store, ∀ p ∈ pairs, p.1 ∈ store_keys (store_write s pairs) := by
  induction pairs with
  | nil => intro s p hp; simp at hp
  | cons q qs ih =>
    intro s p hp
    rcases List.mem_cons.mp hp with hp | hp
    · subst hp
      exact store_write_keys_mono qs (store_upsert s p.1 p.2) p.1
        ((store_keys_mem_upsert s p.1 p.2 p.1).mpr (Or.inl rfl))
    · exact ih (store_upsert s q.1 q.2) p hp

theorem store_write_length_of_keys_present (pairs : List (String × StoredDoc)) :
    ∀ s : Store, (∀ p ∈ pairs, p.1 ∈ store_keys s) →
      (store_write s pairs).length = s.length := by
  induction pairs with
  | nil => intro s _; rfl
  | cons p ps ih =>
    intro s hall
    have hp := hall p (List.mem_cons_self _ _)
    have h1 : (store_upsert s p.1 p.2).length = s.length :=
      store_length_upsert_mem s p.1 p.2 hp
    have h2 : ∀ q ∈ ps, q.1 ∈ store_keys (store_upsert s p.1 p.2) := fun q hq =>
      (store_keys_mem_upsert s p.1 p.2 q.1).mpr
        (Or.inr (hall q (List.mem_cons_of_mem _ hq)))
    calc (store_write s (p :: ps)).length
        = (store_write (store_upsert s p.1 p.2) ps).length := rfl
      _ = (store_upsert s p.1 p.2).length := ih _ h2
      _ = s.length := h1

/-- The id list generated by `add_documents` when no ids are supplied. -/
def gen_ids (documents : List String) (metadatas : List Metadata) : List String :=
  (documents.zip metadatas).map (fun p => generate_doc_id p.1 p.2)

/-- The (id, record) pairs written by `add_documents` when no ids are
supplied. -/
def doc_pairs (documents : List String) (metadatas : List Metadata) :
    List (String × StoredDoc) :=
  ((gen_ids documents metadatas).zip (documents.zip metadatas)).map
    (fun p => (p.1, StoredDoc.mk p.2.1 p.2.2))

theorem add_documents_ok (s : Store) (documents : List String)
    (metadatas : List Metadata) :
    add_documents (some s) true documents metadatas none
      = Except.ok (gen_ids documents metadatas,
          store_write s (doc_pairs documents metadatas)) := by
  simp [add_documents, gen_ids, doc_pairs, store_write]

theorem doc_pairs_fst_mem (documents : List String) (metadatas : List Metadata)
    (a : String) (ha : a ∈ (doc_pairs documents metadatas).map Prod.fst) :
    a ∈ gen_ids documents metadatas := by
  rcases List.mem_map.mp ha with ⟨q, hq, hqa⟩
  rcases List.mem_map.mp hq with ⟨z, hz, hzq⟩
  rcases z with ⟨z1, z2⟩
  have hz1 : z1 ∈ gen_ids documents metadatas := (List.of_mem_zip hz).1
  have haz : a = z1 := by rw [← hqa, ← hzq]
  rw [haz]
  exact hz1

/-- C4: with no explicit ids, `add_documents` derives each document id by the
content hash `generate_doc_id` (first 16 hex digits of the SHA-256 of the
text concatenated with the key-sorted JSON of the metadata) — a pure function
of `(text, metadata)` — so two successive calls with identical documents and
metadatas use the same ids, the second call leaves the document count
unchanged, and the count grows by at most the number of distinct ids. -/
theorem doc_id_idempotent_add (s : Store) (documents : List String)
    (metadatas : List Metadata) :
    ∃ ids st₁ st₂,
      add_documents (some s) true documents metadatas none = Except.ok (ids, st₁)
      ∧ add_documents (some st₁) true documents metadatas none = Except.ok (ids, st₂)
      ∧ ids = (documents.zip metadatas).map (fun p => generate_doc_id p.1 p.2)
      ∧ st₂.length = st₁.length
      ∧ st₂.length ≤ s.length + ids.toFinset.card := by
  refine ⟨gen_ids documents metadatas,
    store_write s (doc_pairs documents metadatas),
    store_write (store_write s (doc_pairs documents metadatas))
      (doc_pairs documents metadatas),
    add_documents_ok s documents metadatas,
    add_documents_ok (store_write s (doc_pairs documents metadatas)) documents metadatas,
    rfl, ?_, ?_⟩
  · exact store_write_length_of_keys_present (doc_pairs documents metadatas)
      (store_write s (doc_pairs documents metadatas))
      (fun p hp => store_write_keys_all (doc_pairs documents metadatas) s p hp)
  · have h1 := store_write_length_of_keys_present (doc_pairs documents metadatas)
      (store_write s (doc_pairs documents metadatas))
      (fun p hp => store_write_keys_all (doc_pairs documents metadatas) s p hp)
    have h2 := store_write_length_le (doc_pairs documents metadatas) s
    have h3 : ((doc_pairs documents metadatas).map Prod.fst).toFinset
        \ (store_keys s).toFinset ⊆ (gen_ids documents metadatas).toFinset := by
      intro a ha
      rcases Finset.mem_sdiff.mp ha with ⟨ha1, _⟩
      rw [List.mem_toFinset] at ha1 ⊢
      exact doc_pairs_fst_mem documents metadatas a ha1
    have h4 := Finset.card_le_card h3
    omega
